import Mathlib

/-!
Shallow embedding of the session lifecycle, heartbeat drift-detection loop,
media-capture management and drift state machine of the JourneyPanel
component (src/unnamed/part_000).

React `useState` setters are modelled as functional updates of a single
`PanelState` record; `useRef` cells (`videoStreamRef`, `screenStreamRef`,
`heartbeatIntervalRef`) are fields of the same record.  Browser timers
(`setTimeout` / `setInterval`) are modelled as a list of `Timer` records in
the state together with a fresh-id counter; `clearInterval` removes the
timer with the given id.  Observable I/O (device requests, track stops,
network calls) is returned as an explicit list of `Effect`s.  Asynchronous
outcomes of the environment (getUserMedia results, network responses,
media-decode steps) are passed in as explicit environment arguments, so
each operation is a pure function from state and environment to state and
effects.
-/

namespace Mindboat

/-- Error names carried by DOM exceptions (`err.name` in the source); `other`
stands for any name not specially handled, e.g. a plain `Error`. -/
inductive ErrName
  | notAllowed
  | permissionDenied
  | notFound
  | notReadable
  | overconstrained
  | other
deriving Repr, DecidableEq

/-- A JavaScript exception as the source observes it: its `name` and `message`. -/
structure JsError where
  name : ErrName
  msg : String
deriving Repr, DecidableEq

/-- A `MediaStream` handle: `active` mirrors `stream.active`; `videoTrackLive`
mirrors `getVideoTracks()[0]` existing with `readyState === 'live'`. -/
structure MediaStream where
  id : Nat
  active : Bool
  videoTrackLive : Bool
deriving Repr, DecidableEq

/-- An encoded image payload produced by `canvas.toBlob` (identified by size). -/
structure Blob where
  size : Nat
deriving Repr, DecidableEq

/-- Kind of a browser timer: one-shot `setTimeout` or recurring `setInterval`. -/
inductive TimerKind
  | timeout
  | interval
deriving Repr, DecidableEq

/-- The callback scheduled with a timer.  Heartbeat callbacks record the
`sessionId` and `isActive` arguments captured by value at scheduling time
(`() => sendHeartbeat(sessionId, isActive)` in the source). -/
inductive TimerAction
  | heartbeatWarmup (sessionId : String) (isActive : Bool)
  | heartbeatTick (sessionId : String) (isActive : Bool)
  | graceRearm
  | passiveStart (sessionId : String)
deriving Repr, DecidableEq

/-- A scheduled browser timer. -/
structure Timer where
  id : Nat
  kind : TimerKind
  delayMs : Nat
  action : TimerAction
deriving Repr, DecidableEq

/-- Voyage summary payload `{imageUrl, summaryText}`. -/
structure SummaryData where
  imageUrl : String
  summaryText : String
deriving Repr, DecidableEq

/-- Observable side effects: device requests, track stops, and network calls. -/
inductive Effect
  | getUserMediaVideo (tier : Nat)
  | stopTracks (streamId : Nat)
  | stopPassiveListening
  | removeChannel
  | subscribeChannel (sessionId : String)
  | netSessionEnd (sessionId : String)
  | netSplineSession (isStart : Bool)
  | netSummary (sessionId : String)
  | netHeartbeat (sessionId : String)
  | netSplineDrift (drifting : Bool)
deriving Repr, DecidableEq

/-- The component state of JourneyPanel restricted to the session lifecycle,
media, heartbeat and drift machinery (the task-list and purely visual fields
are out of scope of the claims). -/
structure PanelState where
  currentSessionId : Option String
  isSessionActive : Bool
  isStartingSession : Bool
  sessionStartTime : Option Nat
  sessionError : Option String
  showControlPanel : Bool
  showSummaryPanel : Bool
  isLoadingSummary : Bool
  summaryData : Option SummaryData
  isVideoOn : Bool
  isScreenSharing : Bool
  isMicMuted : Bool
  videoStream : Option MediaStream
  screenStream : Option MediaStream
  micStream : Option MediaStream
  videoStreamRef : Option MediaStream
  screenStreamRef : Option MediaStream
  heartbeatIntervalRef : Option Nat
  isHeartbeatActive : Bool
  isDrifting : Bool
  driftReason : String
  isDriftAcknowledged : Bool
  realtimeChannel : Option String
  timers : List Timer
  nextTimerId : Nat
deriving Repr, DecidableEq

/-- The initial component state (all `useState` initialisers of the source). -/
def initState : PanelState where
  currentSessionId := none
  isSessionActive := false
  isStartingSession := false
  sessionStartTime := none
  sessionError := none
  showControlPanel := false
  showSummaryPanel := false
  isLoadingSummary := false
  summaryData := none
  isVideoOn := false
  isScreenSharing := false
  isMicMuted := false
  videoStream := none
  screenStream := none
  micStream := none
  videoStreamRef := none
  screenStreamRef := none
  heartbeatIntervalRef := none
  isHeartbeatActive := false
  isDrifting := false
  driftReason := ""
  isDriftAcknowledged := false
  realtimeChannel := none
  timers := []
  nextTimerId := 0

/-- JavaScript `v || dflt` on an optional string: `undefined`, `null` and the
empty string are all falsy. -/
def jsOrString (v : Option String) (dflt : String) : String :=
  match v with
  | none => dflt
  | some str => if str = "" then dflt else str

/-! ## Media Capture Manager -/

/-- The user-facing message built in the `catch` block of `toggleVideo`,
selected on the error's `name`. -/
def cameraErrorMessage (e : JsError) : String :=
  let base := "Failed to access camera. "
  if e.name = .notAllowed ∨ e.name = .permissionDenied then
    base ++ "Please allow camera access in your browser settings."
  else if e.name = .notFound then
    base ++ "No camera found on this device."
  else if e.name = .notReadable then
    base ++ "Camera is unavailable. This usually means:\n• Another application is using the camera (close other video apps)\n• Camera hardware issue (try restarting your browser)\n• OS-level camera restrictions\nThe session will continue without camera monitoring."
  else if e.name = .overconstrained then
    base ++ "Camera does not support the required settings."
  else
    base ++ "Please check your camera settings. Error: " ++ e.msg

/-- One `getUserMedia` attempt per constraint tier: tier 0 = high quality,
1 = medium, 2 = basic, 3 = minimal (`constraintSets` in the source).  The
environment says, for each tier, whether the request resolves with a stream
or rejects with an error. -/
def CameraEnv : Type := Nat → Except JsError MediaStream

/-- The fallback loop of `toggleVideo`: tries the given constraint tiers in
order, stopping at the first success; a rejection named `NotAllowedError` or
`PermissionDeniedError` is re-thrown at once (no further tiers); when every
tier fails the last error is thrown (`lastError || new Error(...)`).  Returns
the device-request effects in order together with the outcome. -/
def runTiers (attempt : CameraEnv) : List Nat → Option JsError → List Effect × Except JsError MediaStream
  | [], last => ([], .error (last.getD ⟨.other, "Failed to start camera with all constraint sets"⟩))
  | i :: rest, _last =>
    match attempt i with
    | .ok st => ([.getUserMediaVideo i], .ok st)
    | .error e =>
      if e.name = .notAllowed ∨ e.name = .permissionDenied then
        ([.getUserMediaVideo i], .error e)
      else
        let r := runTiers attempt rest (some e)
        (.getUserMediaVideo i :: r.1, r.2)

/-- The `toggleVideo` handler.  With the camera on it stops and clears the
stream; otherwise, if a stream handle exists and is still `active`, it
returns without any device request; otherwise it stops any stale stream's
tracks, runs the constraint-tier fallback loop, verifies the accepted
stream's video track is live (stopping the stream and failing otherwise),
and either installs the stream or, in the `catch` block, records a
categorized `sessionError` and resets the video state. -/
def toggleVideo (attempt : CameraEnv) (s : PanelState) : PanelState × List Effect :=
  if s.isVideoOn ∧ s.videoStream.isSome then
    let effs := match s.videoStream with
      | some vs => [Effect.stopTracks vs.id]
      | none => []
    ({ s with videoStream := none, videoStreamRef := none, isVideoOn := false }, effs)
  else if (match s.videoStream with | some vs => vs.active | none => false) then
    (s, [])
  else
    let cleanupEffs : List Effect := match s.videoStream with
      | some vs => [Effect.stopTracks vs.id]
      | none => []
    let r := runTiers attempt [0, 1, 2, 3] none
    match r.2 with
    | .error e =>
      ({ s with sessionError := some (cameraErrorMessage e),
                isVideoOn := false, videoStream := none, videoStreamRef := none },
       cleanupEffs ++ r.1)
    | .ok st =>
      if st.videoTrackLive then
        ({ s with videoStream := some st, videoStreamRef := some st, isVideoOn := true },
         cleanupEffs ++ r.1)
      else
        ({ s with sessionError := some (cameraErrorMessage ⟨.other, "Camera stream is not live"⟩),
                  isVideoOn := false, videoStream := none, videoStreamRef := none },
         cleanupEffs ++ r.1 ++ [Effect.stopTracks st.id])

/-- The `cleanupMediaStreams` function: stops the tracks of every live
stream (camera, screen, microphone), clears the handles and their ref
mirrors and the related flags, and stops passive listening. -/
def cleanupMediaStreams (s : PanelState) : PanelState × List Effect :=
  let p1 : PanelState × List Effect := match s.videoStream with
    | some vs => ({ s with videoStream := none, videoStreamRef := none, isVideoOn := false },
                  [Effect.stopTracks vs.id])
    | none => (s, [])
  let p2 : PanelState × List Effect := match p1.1.screenStream with
    | some ss => ({ p1.1 with screenStream := none, screenStreamRef := none, isScreenSharing := false },
                  [Effect.stopTracks ss.id])
    | none => (p1.1, [])
  let p3 : PanelState × List Effect := match p2.1.micStream with
    | some ms => ({ p2.1 with micStream := none, isMicMuted := false },
                  [Effect.stopTracks ms.id])
    | none => (p2.1, [])
  (p3.1, p1.2 ++ p2.2 ++ p3.2 ++ [Effect.stopPassiveListening])

/-- The `cleanupRealtimeChannel` function: removes the channel if one is open. -/
def cleanupRealtimeChannel (s : PanelState) : PanelState × List Effect :=
  match s.realtimeChannel with
  | some _ => ({ s with realtimeChannel := none }, [Effect.removeChannel])
  | none => (s, [])

/-- The `setupRealtimeChannel` function: removes any existing channel, then
subscribes to the per-session channel. -/
def setupRealtimeChannel (sessionId : String) (s : PanelState) : PanelState × List Effect :=
  let pre : List Effect := match s.realtimeChannel with
    | some _ => [Effect.removeChannel]
    | none => []
  ({ s with realtimeChannel := some sessionId }, pre ++ [Effect.subscribeChannel sessionId])

/-- The `session_ended` broadcast handler installed by `setupRealtimeChannel`:
it clears the active flag and the session id and nothing else. -/
def onSessionEnded (s : PanelState) : PanelState :=
  { s with isSessionActive := false, currentSessionId := none }

/-! ## Frame Capturer

`captureCameraFrame` / `captureScreenFrame` run inside one `try` block:
setting up an offscreen video element, `video.play()` (whose rejection is
the only awaited step that can throw before drawing), a metadata wait that
times out after 1 second and then proceeds with fallback dimensions (it
never fails), a canvas-context check, drawing, and `canvas.toBlob`, whose
callback may deliver `null`.  The aspect-ratio scaling arithmetic is pure
real-number geometry that cannot change whether a blob is produced, so the
embedding records only the encoder's outcome.  Any exception thrown in the
`try` block is caught and converted to a `null` result. -/

/-- Outcomes of the fallible steps inside one frame-capture attempt. -/
structure CaptureEnv where
  playOk : Bool
  ctxOk : Bool
  encodeResult : Option Blob
deriving Repr, DecidableEq

/-- A failure inside the `try` block of a capture function. -/
inductive CaptureStepError
  | playRejected
  | noCanvasContext
deriving Repr, DecidableEq

/-- The body of `captureCameraFrame` before its `catch`: a missing stream
returns `null` directly; otherwise `video.play()` rejection or a missing
canvas context throw, and the encoder's (possibly `null`) blob is returned. -/
def captureCameraFrameE (stream : Option MediaStream) (env : CaptureEnv) :
    Except CaptureStepError (Option Blob) :=
  match stream with
  | none => .ok none
  | some _ =>
    if env.playOk = false then .error .playRejected
    else if env.ctxOk = false then .error .noCanvasContext
    else .ok env.encodeResult

/-- Function `captureCameraFrame`: the `try` body with its `catch` handler, which
logs the error and returns `null`. -/
def captureCameraFrame (stream : Option MediaStream) (env : CaptureEnv) : Option Blob :=
  match captureCameraFrameE stream env with
  | .ok b => b
  | .error _ => none

/-- The body of `captureScreenFrame` before its `catch`: identical control
flow to the camera variant (its metadata wait short-circuits when metadata
is already available and otherwise also times out rather than failing). -/
def captureScreenFrameE (stream : Option MediaStream) (env : CaptureEnv) :
    Except CaptureStepError (Option Blob) :=
  match stream with
  | none => .ok none
  | some _ =>
    if env.playOk = false then .error .playRejected
    else if env.ctxOk = false then .error .noCanvasContext
    else .ok env.encodeResult

/-- Function `captureScreenFrame`: the `try` body with its `catch` handler, which
logs the error and returns `null`. -/
def captureScreenFrame (stream : Option MediaStream) (env : CaptureEnv) : Option Blob :=
  match captureScreenFrameE stream env with
  | .ok b => b
  | .error _ => none

/-! ## Heartbeat Scheduler and Drift State Machine -/

/-- The focus-evaluation response body used by `sendHeartbeat`. -/
structure HeartbeatResponse where
  is_drifting : Bool
  drift_reason : Option String
deriving Repr, DecidableEq

instance {ε α : Type} [DecidableEq ε] [DecidableEq α] : DecidableEq (Except ε α) := fun a b =>
  match a, b with
  | .ok x, .ok y =>
    if h : x = y then .isTrue (by rw [h]) else .isFalse (by intro hc; cases hc; exact h rfl)
  | .error x, .error y =>
    if h : x = y then .isTrue (by rw [h]) else .isFalse (by intro hc; cases hc; exact h rfl)
  | .ok _, .error _ => .isFalse (by intro hc; cases hc)
  | .error _, .ok _ => .isFalse (by intro hc; cases hc)

/-- Environment of one `sendHeartbeat` run: the outcomes of both capture
attempts and of the `session-heartbeat` invocation (which is only consulted
when the call is actually made). -/
structure HeartbeatEnv where
  cameraEnv : CaptureEnv
  screenEnv : CaptureEnv
  response : Except String HeartbeatResponse
deriving Repr, DecidableEq

/-- Function `sendHeartbeat(sessionId, isActive)`: returns at once on falsy arguments;
captures camera and screen frames from the ref mirrors; skips the network
call when both captures are `null`; on transport error logs and returns; on
success applies the asymmetric drift policy — it enters the drifting state
(recording the reason, clearing acknowledgment and firing the drift scene
change) only when the response reports drifting while the state is not
drifting, and a response reporting focus while drifting is logged but
changes nothing. -/
def sendHeartbeat (sessionId : String) (isActive : Bool) (env : HeartbeatEnv)
    (s : PanelState) : PanelState × List Effect :=
  if sessionId = "" ∨ isActive = false then (s, [])
  else
    let cameraBlob := captureCameraFrame s.videoStreamRef env.cameraEnv
    let screenBlob := captureScreenFrame s.screenStreamRef env.screenEnv
    if cameraBlob = none ∧ screenBlob = none then (s, [])
    else
      match env.response with
      | .error _ => (s, [Effect.netHeartbeat sessionId])
      | .ok resp =>
        if resp.is_drifting = true ∧ s.isDrifting = false then
          ({ s with isDrifting := true,
                    driftReason := jsOrString resp.drift_reason "Focus has drifted from the task",
                    isDriftAcknowledged := false },
           [Effect.netHeartbeat sessionId, Effect.netSplineDrift true])
        else (s, [Effect.netHeartbeat sessionId])

/-- One delivered heartbeat evaluation: the arguments `sendHeartbeat` was
called with and the environment outcomes of that run. -/
structure HeartbeatCall where
  sessionId : String
  isActive : Bool
  env : HeartbeatEnv
deriving Repr, DecidableEq

/-- Runs a sequence of `sendHeartbeat` deliveries, threading the state. -/
def runHeartbeats (calls : List HeartbeatCall) (s : PanelState) : PanelState :=
  calls.foldl (fun st c => (sendHeartbeat c.sessionId c.isActive c.env st).1) s

/-- Function `startHeartbeat(sessionId, isActive)`: a no-op when the interval handle
already exists; otherwise marks the heartbeat active, schedules the one-shot
8-second warm-up evaluation (whose handle is not retained) and the recurring
60-second interval, storing only the interval's handle.  Both callbacks
capture `sessionId` and `isActive` by value. -/
def startHeartbeat (sessionId : String) (isActive : Bool) (s : PanelState) : PanelState :=
  match s.heartbeatIntervalRef with
  | some _ => s
  | none =>
    let warm : Timer := ⟨s.nextTimerId, .timeout, 8000, .heartbeatWarmup sessionId isActive⟩
    let tick : Timer := ⟨s.nextTimerId + 1, .interval, 60000, .heartbeatTick sessionId isActive⟩
    { s with isHeartbeatActive := true,
             timers := s.timers ++ [warm, tick],
             heartbeatIntervalRef := some (s.nextTimerId + 1),
             nextTimerId := s.nextTimerId + 2 }

/-- Function `stopHeartbeat`: when the interval handle exists, clears that interval,
nulls the handle and marks the heartbeat inactive; otherwise does nothing.
Only the timer whose id is the stored handle is cancelled. -/
def stopHeartbeat (s : PanelState) : PanelState :=
  match s.heartbeatIntervalRef with
  | none => s
  | some tid =>
    { s with timers := s.timers.filter (fun t => t.id ≠ tid),
             heartbeatIntervalRef := none,
             isHeartbeatActive := false }

/-- Function `handleContinueWorking`: immediately acknowledges the drift and leaves
the drifting state, fires the sailing scene change, and schedules a one-shot
60-second timer that re-arms the acknowledgment flag. -/
def handleContinueWorking (s : PanelState) : PanelState × List Effect :=
  let s1 := { s with isDriftAcknowledged := true, isDrifting := false }
  ({ s1 with timers := s1.timers ++ [⟨s1.nextTimerId, .timeout, 60000, .graceRearm⟩],
             nextTimerId := s1.nextTimerId + 1 },
   [Effect.netSplineDrift false])

/-- Firing a scheduled timer callback.  Heartbeat callbacks invoke
`sendHeartbeat` with their captured-by-value arguments; the grace-window
callback re-arms the acknowledgment flag; the passive-listening callback is
out of scope and leaves the modelled state unchanged. -/
def fireAction (a : TimerAction) (env : HeartbeatEnv) (s : PanelState) : PanelState × List Effect :=
  match a with
  | .heartbeatWarmup sid act => sendHeartbeat sid act env s
  | .heartbeatTick sid act => sendHeartbeat sid act env s
  | .graceRearm => ({ s with isDriftAcknowledged := false }, [])
  | .passiveStart _ => (s, [])

/-! ## Session Lifecycle Controller: ending a voyage -/

/-- The `stats` object of the `session-end` response. -/
structure SessionStats where
  totalDuration : Nat
  sailingDuration : Nat
  driftingDuration : Nat
  distractionCount : Nat
  focusPercentage : Nat
deriving Repr, DecidableEq

/-- The `ai_analysis` object of the `session-end` response (only the fields
the panel reads). -/
structure AiAnalysis where
  overall_comment : String
  distraction_analysis : String
deriving Repr, DecidableEq

/-- The parsed `session-end` response body. -/
structure SessionEndData where
  stats : SessionStats
  ai_analysis : AiAnalysis
deriving Repr, DecidableEq

/-- Outcome of the `sailing-summary` request: a parsed body on HTTP success,
`notOk` on a failure status (handled without throwing), or a thrown
transport error with its message. -/
inductive SummaryOutcome
  | ok (d : SummaryData)
  | notOk
  | threw (msg : String)
deriving Repr, DecidableEq

/-- Environment of one `handleEndVoyage` run: the `session-end` call either
yields a parsed body or throws with a message (a non-ok HTTP status is
turned into a thrown `Session end failed: ...` error by the source), and
the `sailing-summary` call has one of its three outcomes. -/
structure EndVoyageEnv where
  sessionEnd : Except String SessionEndData
  summary : SummaryOutcome
deriving Repr, DecidableEq

/-- JavaScript `Math.round(n / 60)` on a non-negative integral number of seconds. -/
def roundDivSixty (n : Nat) : Nat := (n + 30) / 60

/-- Fallback image used by both fallback summaries. -/
def fallbackImageUrl : String :=
  "https://images.pexels.com/photos/1001682/pexels-photo-1001682.jpeg?auto=compress&cs=tinysrgb&w=800"

/-- The generic fallback summary set in the `catch` block of `handleEndVoyage`. -/
def genericFallbackSummary : SummaryData :=
  ⟨fallbackImageUrl,
   "Your voyage has been completed, but we were unable to generate a detailed summary at this time."⟩

/-- The enhanced summary text built on `sailing-summary` success. -/
def enhancedSummaryText (base : String) (st : SessionStats) : String :=
  base ++ "\n\n📊 Session Statistics:\n• Duration: " ++ toString (roundDivSixty st.totalDuration)
    ++ " minutes\n• Focus Time: " ++ toString (roundDivSixty st.sailingDuration)
    ++ " minutes (" ++ toString st.focusPercentage ++ "%)\n• Distractions: "
    ++ toString st.distractionCount ++ " events"

/-- The fallback summary text built when `sailing-summary` returns a failure
status. -/
def statsFallbackText (d : SessionEndData) : String :=
  "Your voyage has been completed successfully!\n\n📊 Session Statistics:\n• Duration: "
    ++ toString (roundDivSixty d.stats.totalDuration) ++ " minutes\n• Focus Time: "
    ++ toString d.stats.focusPercentage ++ "%\n• Distractions: "
    ++ toString d.stats.distractionCount
    ++ " events\n\n🤖 AI Analysis:\n" ++ d.ai_analysis.overall_comment
    ++ "\n\n" ++ d.ai_analysis.distraction_analysis

/-- Function `handleEndVoyage`: aborts with a user-visible error and no I/O when no
session id is held (JavaScript falsiness: `null` or the empty string).
Otherwise it immediately clears the session flags and switches to the
summary view, then calls `session-end`; on a throw/non-ok status the `catch`
block records the error, substitutes the generic fallback summary and clears
the start time, and the `finally` clears the loading flag — the media,
channel and heartbeat teardown steps are not reached on that path.  On
success it fires the end scene animation (errors swallowed internally),
tears down the realtime channel, the media streams and the heartbeat, calls
`sailing-summary`, and stores the enhanced or fallback summary. -/
def handleEndVoyage (env : EndVoyageEnv) (s : PanelState) : PanelState × List Effect :=
  if s.currentSessionId = none ∨ s.currentSessionId = some "" then
    ({ s with sessionError := some "No active session found" }, [])
  else
    match s.currentSessionId with
    | none => ({ s with sessionError := some "No active session found" }, [])
    | some sid =>
      let s0 := { s with sessionError := none, currentSessionId := none,
                         isSessionActive := false, isStartingSession := false,
                         showControlPanel := false, showSummaryPanel := true,
                         isLoadingSummary := true }
      match env.sessionEnd with
      | .error msg =>
        ({ s0 with sessionError := some msg,
                   summaryData := some genericFallbackSummary,
                   sessionStartTime := none,
                   isLoadingSummary := false },
         [Effect.netSessionEnd sid])
      | .ok data =>
        let p1 := cleanupRealtimeChannel s0
        let p2 := cleanupMediaStreams p1.1
        let s3 := stopHeartbeat p2.1
        let effs := [Effect.netSessionEnd sid, Effect.netSplineSession false]
          ++ p1.2 ++ p2.2 ++ [Effect.netSummary sid]
        match env.summary with
        | .ok sd =>
          ({ s3 with summaryData := some ⟨sd.imageUrl, enhancedSummaryText sd.summaryText data.stats⟩,
                     sessionStartTime := none, isLoadingSummary := false }, effs)
        | .notOk =>
          ({ s3 with summaryData := some ⟨fallbackImageUrl, statsFallbackText data⟩,
                     sessionStartTime := none, isLoadingSummary := false }, effs)
        | .threw msg =>
          ({ s3 with sessionError := some msg,
                     summaryData := some genericFallbackSummary,
                     sessionStartTime := none, isLoadingSummary := false }, effs)

/-! ## Reachable states of the heartbeat and drift machinery -/

/-- The operations that touch the heartbeat timers or drift state, used to
state the timer invariant over reachable states. -/
inductive PanelOp
  | hbStart (sessionId : String) (isActive : Bool)
  | hbStop
  | continueWork
  | heartbeat (sessionId : String) (isActive : Bool) (env : HeartbeatEnv)
deriving Repr, DecidableEq

/-- Applying one operation to the state (ignoring emitted effects). -/
def applyOp (o : PanelOp) (s : PanelState) : PanelState :=
  match o with
  | .hbStart sid act => startHeartbeat sid act s
  | .hbStop => stopHeartbeat s
  | .continueWork => (handleContinueWorking s).1
  | .heartbeat sid act env => (sendHeartbeat sid act env s).1

/-- Running a sequence of operations from a state. -/
def runOps (ops : List PanelOp) (s : PanelState) : PanelState :=
  ops.foldl (fun st o => applyOp o st) s

/-- Number of active `setInterval` timers. -/
def intervalCount (ts : List Timer) : Nat :=
  (ts.filter (fun t => t.kind = TimerKind.interval)).length

/-! ## Helper lemmas -/

theorem runHeartbeats_nil (s : PanelState) : runHeartbeats [] s = s := rfl

theorem runHeartbeats_cons (c : HeartbeatCall) (cs : List HeartbeatCall) (s : PanelState) :
    runHeartbeats (c :: cs) s
      = runHeartbeats cs ((sendHeartbeat c.sessionId c.isActive c.env s).1) := rfl

/-- While already drifting, a heartbeat delivery leaves the whole component
state untouched: every branch of `sendHeartbeat` other than drift entry
returns the state unchanged, and drift entry needs `isDrifting = false`. -/
theorem sendHeartbeat_fst_of_isDrifting (sid : String) (act : Bool) (env : HeartbeatEnv)
    (s : PanelState) (h : s.isDrifting = true) : (sendHeartbeat sid act env s).1 = s := by
  unfold sendHeartbeat
  by_cases h1 : sid = "" ∨ act = false
  · simp [h1]
  · simp only [if_neg h1]
    by_cases h2 : captureCameraFrame s.videoStreamRef env.cameraEnv = none ∧
        captureScreenFrame s.screenStreamRef env.screenEnv = none
    · simp [h2]
    · simp only [if_neg h2]
      cases henv : env.response with
      | error msg => simp
      | ok r =>
        have hcond : ¬ (r.is_drifting = true ∧ s.isDrifting = false) := by
          rintro ⟨_, hfd⟩
          rw [h] at hfd
          cases hfd
        simp [hcond]

/-- Lemma: `sendHeartbeat` never touches the timers, the interval handle, the
heartbeat-active flag, the streams or the channel. -/
theorem sendHeartbeat_frame (sid : String) (act : Bool) (env : HeartbeatEnv) (s : PanelState) :
    (sendHeartbeat sid act env s).1.timers = s.timers ∧
    (sendHeartbeat sid act env s).1.nextTimerId = s.nextTimerId ∧
    (sendHeartbeat sid act env s).1.heartbeatIntervalRef = s.heartbeatIntervalRef ∧
    (sendHeartbeat sid act env s).1.isHeartbeatActive = s.isHeartbeatActive := by
  unfold sendHeartbeat
  by_cases h1 : sid = "" ∨ act = false
  · simp [h1]
  · simp only [if_neg h1]
    by_cases h2 : captureCameraFrame s.videoStreamRef env.cameraEnv = none ∧
        captureScreenFrame s.screenStreamRef env.screenEnv = none
    · simp [h2]
    · simp only [if_neg h2]
      cases henv : env.response with
      | error msg => simp
      | ok r =>
        by_cases hcond : r.is_drifting = true ∧ s.isDrifting = false <;> simp [hcond]

/-! ## Claim theorems -/

/-- C1: for every sequence of heartbeat evaluation results delivered to
`sendHeartbeat`, once `isDrifting` is true it stays true under all
subsequent deliveries; in particular, a delivery whose response reports
`is_drifting = false` while the state is drifting changes no state at all.
Only the explicit manual recovery (`handleContinueWorking`) — which is not
among the heartbeat deliveries quantified here — can leave the drifting
state. -/
theorem drift_state_monotone (calls : List HeartbeatCall) (s : PanelState)
    (h : s.isDrifting = true) :
    (runHeartbeats calls s).isDrifting = true ∧
    (∀ sid act env, (sendHeartbeat sid act env s).1 = s) := by
  constructor
  · induction calls generalizing s with
    | nil => exact h
    | cons c cs ih =>
      rw [runHeartbeats_cons, sendHeartbeat_fst_of_isDrifting c.sessionId c.isActive c.env s h]
      exact ih s h
  · intro sid act env
    exact sendHeartbeat_fst_of_isDrifting sid act env s h

/-- Concrete drifting state used by witnesses. -/
def driftingState : PanelState := { initState with isDrifting := true, driftReason := "looking away" }

/-- Heartbeat environment whose camera capture succeeds and whose response
reports the user focused. -/
def focusedReportEnv : HeartbeatEnv :=
  ⟨⟨true, true, some ⟨7⟩⟩, ⟨true, true, none⟩, .ok ⟨false, none⟩⟩

theorem drift_state_monotone_witness :
    (runHeartbeats [⟨"s1", true, focusedReportEnv⟩] driftingState).isDrifting = true ∧
    (sendHeartbeat "s1" true focusedReportEnv driftingState).1 = driftingState :=
  ⟨(drift_state_monotone [⟨"s1", true, focusedReportEnv⟩] driftingState rfl).1,
   (drift_state_monotone [] driftingState rfl).2 "s1" true focusedReportEnv⟩

/-- C4: the camera-on path of `toggleVideo` is idempotent — invoked while a
live camera stream handle is already held (and the on flag has not yet been
set, so the call is an acquisition and not the toggle-off branch), it makes
no device request, emits no effect and leaves the state, including the
existing stream handle, unchanged. -/
theorem camera_acquire_idempotent (attempt : CameraEnv) (s : PanelState) (vs : MediaStream)
    (hOn : s.isVideoOn = false) (hvs : s.videoStream = some vs) (hact : vs.active = true) :
    toggleVideo attempt s = (s, []) := by
  unfold toggleVideo
  rw [hvs]
  simp [hOn, hact]

theorem camera_acquire_idempotent_witness :
    toggleVideo (fun _ => .error ⟨ErrName.other, "unreachable"⟩)
        { initState with videoStream := some ⟨4, true, true⟩ }
      = ({ initState with videoStream := some ⟨4, true, true⟩ }, []) :=
  camera_acquire_idempotent _ _ ⟨4, true, true⟩ rfl rfl rfl

/-- C7: frame capture on an absent source stream returns `null` for both
the camera and the screen variant, and any failure inside the capture body
is caught and converted to a `null` return rather than propagated. -/
theorem capture_null_never_throws :
    (∀ env, captureCameraFrame none env = none ∧ captureScreenFrame none env = none) ∧
    (∀ stream env e, captureCameraFrameE stream env = .error e →
      captureCameraFrame stream env = none) ∧
    (∀ stream env e, captureScreenFrameE stream env = .error e →
      captureScreenFrame stream env = none) := by
  refine ⟨fun env => ⟨rfl, rfl⟩, ?_, ?_⟩
  · intro stream env e he
    unfold captureCameraFrame
    rw [he]
  · intro stream env e he
    unfold captureScreenFrame
    rw [he]

theorem capture_null_never_throws_witness :
    (captureCameraFrame none ⟨true, true, some ⟨9⟩⟩ = none ∧
      captureScreenFrame none ⟨true, true, some ⟨9⟩⟩ = none) ∧
    captureCameraFrame (some ⟨2, true, true⟩) ⟨false, true, some ⟨9⟩⟩ = none ∧
    captureScreenFrame (some ⟨2, true, true⟩) ⟨true, false, some ⟨9⟩⟩ = none :=
  ⟨capture_null_never_throws.1 ⟨true, true, some ⟨9⟩⟩,
   capture_null_never_throws.2.1 (some ⟨2, true, true⟩) ⟨false, true, some ⟨9⟩⟩ .playRejected rfl,
   capture_null_never_throws.2.2 (some ⟨2, true, true⟩) ⟨true, false, some ⟨9⟩⟩ .noCanvasContext rfl⟩

/-- C8: `handleEndVoyage` invoked with no active session id (absent or the
falsy empty string) records the user-visible error message and performs no
network call or any other effect; every other component field — session,
media, heartbeat — is left unchanged. -/
theorem end_voyage_no_session (env : EndVoyageEnv) (s : PanelState)
    (h : s.currentSessionId = none ∨ s.currentSessionId = some "") :
    handleEndVoyage env s = ({ s with sessionError := some "No active session found" }, []) := by
  unfold handleEndVoyage
  rw [if_pos h]

theorem end_voyage_no_session_witness :
    handleEndVoyage ⟨.error "network down", .notOk⟩ initState
      = ({ initState with sessionError := some "No active session found" }, []) :=
  end_voyage_no_session ⟨.error "network down", .notOk⟩ initState (Or.inl rfl)

/-- C2: `handleContinueWorking`, from any state, immediately sets
`acknowledged = true` and `isDrifting = false`, fires the sailing scene
change, and schedules exactly one 60-second one-shot timer whose firing
re-arms the acknowledgment flag; and during the grace window detection is
not suppressed — a heartbeat whose response reports drifting while the
state is not drifting still enters the drifting state and resets the
acknowledgment flag to false. -/
theorem continue_working_grace (s : PanelState) :
    (handleContinueWorking s).1.isDriftAcknowledged = true ∧
    (handleContinueWorking s).1.isDrifting = false ∧
    (handleContinueWorking s).2 = [Effect.netSplineDrift false] ∧
    (handleContinueWorking s).1.timers
      = s.timers ++ [⟨s.nextTimerId, TimerKind.timeout, 60000, TimerAction.graceRearm⟩] ∧
    (∀ env s2, (fireAction TimerAction.graceRearm env s2).1.isDriftAcknowledged = false) ∧
    (∀ sid (env : HeartbeatEnv) (s2 : PanelState) (vs : MediaStream) (b : Blob),
      sid ≠ "" → s2.isDrifting = false → s2.videoStreamRef = some vs →
      env.cameraEnv = ⟨true, true, some b⟩ →
      ∀ r, env.response = .ok r → r.is_drifting = true →
        (sendHeartbeat sid true env s2).1.isDrifting = true ∧
        (sendHeartbeat sid true env s2).1.isDriftAcknowledged = false) := by
  refine ⟨rfl, rfl, rfl, rfl, fun env s2 => rfl, ?_⟩
  intro sid env s2 vs b hsid hdr hvs hcam r hresp hrd
  unfold sendHeartbeat
  have h1 : ¬(sid = "" ∨ true = false) := by simp [hsid]
  rw [if_neg h1]
  have hcap : captureCameraFrame s2.videoStreamRef env.cameraEnv = some b := by
    rw [hvs, hcam]
    rfl
  simp only [hcap, hresp]
  have h2 : ¬(some b = none ∧ captureScreenFrame s2.screenStreamRef env.screenEnv = none) := by
    rintro ⟨hc, _⟩
    cases hc
  rw [if_neg h2]
  simp [hrd, hdr]

/-- State in the grace window: not drifting, acknowledged, camera live. -/
def graceState : PanelState :=
  { initState with isDriftAcknowledged := true, videoStreamRef := some ⟨6, true, true⟩ }

/-- Heartbeat environment whose camera capture succeeds and whose response
reports drifting. -/
def driftReportEnv : HeartbeatEnv :=
  ⟨⟨true, true, some ⟨3⟩⟩, ⟨true, true, none⟩, .ok ⟨true, some "looking away"⟩⟩

theorem continue_working_grace_witness :
    (handleContinueWorking driftingState).1.isDriftAcknowledged = true ∧
    (handleContinueWorking driftingState).1.isDrifting = false ∧
    (sendHeartbeat "s1" true driftReportEnv graceState).1.isDrifting = true ∧
    (sendHeartbeat "s1" true driftReportEnv graceState).1.isDriftAcknowledged = false := by
  have h := continue_working_grace driftingState
  have hre := h.2.2.2.2.2 "s1" driftReportEnv graceState ⟨6, true, true⟩ ⟨3⟩
    (by decide) rfl rfl rfl ⟨true, some "looking away"⟩ rfl rfl
  exact ⟨h.1, h.2.1, hre.1, hre.2⟩

/-- Session state with a live camera, screen and microphone stream, an open
realtime channel and a running heartbeat — the state reached right before
the user ends the voyage. -/
def endFailState : PanelState :=
  { initState with
      currentSessionId := some "s1", isSessionActive := true, sessionStartTime := some 1000,
      videoStream := some ⟨1, true, true⟩, videoStreamRef := some ⟨1, true, true⟩, isVideoOn := true,
      screenStream := some ⟨2, true, true⟩, screenStreamRef := some ⟨2, true, true⟩,
      isScreenSharing := true,
      micStream := some ⟨3, true, true⟩,
      heartbeatIntervalRef := some 1, isHeartbeatActive := true,
      timers := [⟨0, TimerKind.timeout, 8000, TimerAction.heartbeatWarmup "s1" true⟩,
                 ⟨1, TimerKind.interval, 60000, TimerAction.heartbeatTick "s1" true⟩],
      nextTimerId := 2,
      realtimeChannel := some "s1" }

/-- Environment in which the `session-end` finalize call fails. -/
def endFailEnv : EndVoyageEnv :=
  ⟨.error "Session end failed: 500 Internal Server Error", .notOk⟩

/-- C3 at its failing input: when the finalize-session call fails,
`handleEndVoyage` jumps to its `catch` block before ever reaching
`cleanupMediaStreams` / `stopHeartbeat` / `cleanupRealtimeChannel`, so the
camera, screen and microphone streams all stay live (no track is stopped),
the heartbeat interval keeps running, and the channel stays open — the only
effect of the whole run is the failed finalize call itself. -/
theorem end_voyage_failure_keeps_streams :
    (handleEndVoyage endFailEnv endFailState).1.videoStream = some ⟨1, true, true⟩ ∧
    (handleEndVoyage endFailEnv endFailState).1.screenStream = some ⟨2, true, true⟩ ∧
    (handleEndVoyage endFailEnv endFailState).1.micStream = some ⟨3, true, true⟩ ∧
    (handleEndVoyage endFailEnv endFailState).1.heartbeatIntervalRef = some 1 ∧
    (handleEndVoyage endFailEnv endFailState).1.realtimeChannel = some "s1" ∧
    (handleEndVoyage endFailEnv endFailState).2 = [Effect.netSessionEnd "s1"] := by
  refine ⟨?_, ?_, ?_, ?_, ?_, ?_⟩ <;> rfl

/-- C6: starting the heartbeat twice with no intervening stop leaves the
state of the first start unchanged — the second call schedules nothing —
and after the first start exactly one recurring interval timer exists, the
60-second tick whose handle is stored. -/
theorem start_heartbeat_twice (s : PanelState) (sid1 sid2 : String) (a1 a2 : Bool)
    (h : s.heartbeatIntervalRef = none) (h0 : intervalCount s.timers = 0) :
    startHeartbeat sid2 a2 (startHeartbeat sid1 a1 s) = startHeartbeat sid1 a1 s ∧
    intervalCount (startHeartbeat sid1 a1 s).timers = 1 ∧
    (startHeartbeat sid1 a1 s).heartbeatIntervalRef = some (s.nextTimerId + 1) ∧
    (⟨s.nextTimerId + 1, TimerKind.interval, 60000, TimerAction.heartbeatTick sid1 a1⟩
        ∈ (startHeartbeat sid1 a1 s).timers) ∧
    (⟨s.nextTimerId + 1, TimerKind.interval, 60000, TimerAction.heartbeatTick sid1 a1⟩ :
        Timer).delayMs = 60000 := by
  unfold startHeartbeat
  rw [h]
  refine ⟨rfl, ?_, rfl, ?_, rfl⟩
  · simp only [intervalCount, List.filter_append, List.length_append] at *
    simp [h0]
  · simp

theorem start_heartbeat_twice_witness :
    startHeartbeat "s2" false (startHeartbeat "s1" true initState)
        = startHeartbeat "s1" true initState ∧
    intervalCount (startHeartbeat "s1" true initState).timers = 1 ∧
    (startHeartbeat "s1" true initState).heartbeatIntervalRef
        = some (initState.nextTimerId + 1) ∧
    (⟨initState.nextTimerId + 1, TimerKind.interval, 60000, TimerAction.heartbeatTick "s1" true⟩
        ∈ (startHeartbeat "s1" true initState).timers) ∧
    (⟨initState.nextTimerId + 1, TimerKind.interval, 60000,
        TimerAction.heartbeatTick "s1" true⟩ : Timer).delayMs = 60000 :=
  start_heartbeat_twice initState "s1" "s2" true false rfl rfl

/-- A heartbeat delivery with a live camera capture always makes the
network call: `netHeartbeat` is among its effects whatever the response. -/
theorem netHeartbeat_mem (sid : String) (env : HeartbeatEnv) (s : PanelState)
    (vs : MediaStream) (b : Blob) (hsid : sid ≠ "")
    (hvs : s.videoStreamRef = some vs) (hcam : env.cameraEnv = ⟨true, true, some b⟩) :
    Effect.netHeartbeat sid ∈ (sendHeartbeat sid true env s).2 := by
  unfold sendHeartbeat
  have h1 : ¬(sid = "" ∨ true = false) := by simp [hsid]
  rw [if_neg h1]
  have hcap : captureCameraFrame s.videoStreamRef env.cameraEnv = some b := by
    rw [hvs, hcam]
    rfl
  simp only [hcap]
  have h2 : ¬(some b = none ∧ captureScreenFrame s.screenStreamRef env.screenEnv = none) := by
    rintro ⟨hc, _⟩
    cases hc
  rw [if_neg h2]
  cases henv : env.response with
  | error msg => simp
  | ok r =>
    by_cases hcond : r.is_drifting = true ∧ s.isDrifting = false <;> simp [hcond]

/-- Lemma: `startHeartbeat` touches neither the streams, their ref mirrors, the
channel, nor the drift fields. -/
theorem startHeartbeat_frame (sid : String) (act : Bool) (s : PanelState) :
    (startHeartbeat sid act s).videoStreamRef = s.videoStreamRef ∧
    (startHeartbeat sid act s).videoStream = s.videoStream ∧
    (startHeartbeat sid act s).screenStream = s.screenStream ∧
    (startHeartbeat sid act s).micStream = s.micStream ∧
    (startHeartbeat sid act s).realtimeChannel = s.realtimeChannel := by
  unfold startHeartbeat
  cases hh : s.heartbeatIntervalRef <;> simp

/-- C10: the `session_ended` realtime handler clears only the active flag
and the session id; every heartbeat, timer, media and channel field is left
as it was, the 60-second interval scheduled by `startHeartbeat` (whose
callback captured the session id and `isActive = true` by value) is still
pending, and firing a heartbeat for the ended session still makes the
network call. -/
theorem session_ended_frame_effect (s : PanelState) (sid : String) (env : HeartbeatEnv)
    (vs : MediaStream) (b : Blob)
    (href : s.heartbeatIntervalRef = none) (hsid : sid ≠ "")
    (hvs : s.videoStreamRef = some vs) (hcam : env.cameraEnv = ⟨true, true, some b⟩) :
    (onSessionEnded (startHeartbeat sid true s)).isSessionActive = false ∧
    (onSessionEnded (startHeartbeat sid true s)).currentSessionId = none ∧
    (onSessionEnded (startHeartbeat sid true s)).heartbeatIntervalRef
      = (startHeartbeat sid true s).heartbeatIntervalRef ∧
    (onSessionEnded (startHeartbeat sid true s)).isHeartbeatActive
      = (startHeartbeat sid true s).isHeartbeatActive ∧
    (onSessionEnded (startHeartbeat sid true s)).timers = (startHeartbeat sid true s).timers ∧
    (onSessionEnded (startHeartbeat sid true s)).videoStream
      = (startHeartbeat sid true s).videoStream ∧
    (onSessionEnded (startHeartbeat sid true s)).screenStream
      = (startHeartbeat sid true s).screenStream ∧
    (onSessionEnded (startHeartbeat sid true s)).micStream
      = (startHeartbeat sid true s).micStream ∧
    (onSessionEnded (startHeartbeat sid true s)).realtimeChannel
      = (startHeartbeat sid true s).realtimeChannel ∧
    (⟨s.nextTimerId + 1, TimerKind.interval, 60000, TimerAction.heartbeatTick sid true⟩
        ∈ (onSessionEnded (startHeartbeat sid true s)).timers) ∧
    Effect.netHeartbeat sid
      ∈ (sendHeartbeat sid true env (onSessionEnded (startHeartbeat sid true s))).2 := by
  refine ⟨rfl, rfl, rfl, rfl, rfl, rfl, rfl, rfl, rfl, ?_, ?_⟩
  · show _ ∈ (startHeartbeat sid true s).timers
    unfold startHeartbeat
    rw [href]
    simp
  · have hvs2 : (onSessionEnded (startHeartbeat sid true s)).videoStreamRef = some vs := by
      show (startHeartbeat sid true s).videoStreamRef = some vs
      rw [(startHeartbeat_frame sid true s).1, hvs]
    exact netHeartbeat_mem sid env _ vs b hsid hvs2 hcam

/-- State with an active session and a live camera ref, as after a
successful session start. -/
def preEndState : PanelState :=
  { initState with currentSessionId := some "s9", isSessionActive := true,
                   videoStreamRef := some ⟨1, true, true⟩ }

theorem session_ended_frame_effect_witness :
    (onSessionEnded (startHeartbeat "s9" true preEndState)).isSessionActive = false ∧
    (onSessionEnded (startHeartbeat "s9" true preEndState)).currentSessionId = none ∧
    (onSessionEnded (startHeartbeat "s9" true preEndState)).timers
      = (startHeartbeat "s9" true preEndState).timers ∧
    (⟨preEndState.nextTimerId + 1, TimerKind.interval, 60000, TimerAction.heartbeatTick "s9" true⟩
        ∈ (onSessionEnded (startHeartbeat "s9" true preEndState)).timers) ∧
    Effect.netHeartbeat "s9"
      ∈ (sendHeartbeat "s9" true focusedReportEnv
          (onSessionEnded (startHeartbeat "s9" true preEndState))).2 := by
  have h := session_ended_frame_effect preEndState "s9" focusedReportEnv ⟨1, true, true⟩ ⟨7⟩
    rfl (by decide) rfl rfl
  exact ⟨h.1, h.2.1, h.2.2.2.2.1, h.2.2.2.2.2.2.2.2.2.1, h.2.2.2.2.2.2.2.2.2.2⟩

/-- Induction invariant for the heartbeat timers: the handle mirrors the
active flag, timer ids are below the freshness counter and pairwise
distinct, and the timers are all one-shots except, when the handle is held,
the single interval carrying the handle's id. -/
def hbInv (s : PanelState) : Prop :=
  (s.heartbeatIntervalRef = none ↔ s.isHeartbeatActive = false) ∧
  (∀ t ∈ s.timers, t.id < s.nextTimerId) ∧
  List.Pairwise (fun a b => a.id ≠ b.id) s.timers ∧
  (match s.heartbeatIntervalRef with
   | none => ∀ t ∈ s.timers, t.kind = TimerKind.timeout
   | some tid => tid < s.nextTimerId ∧
       ∀ t ∈ s.timers, (t.kind = TimerKind.interval ↔ t.id = tid))

theorem hbInv_init : hbInv initState := by
  refine ⟨by simp [initState], by simp [initState], by simp [initState], ?_⟩
  show ∀ t ∈ initState.timers, t.kind = TimerKind.timeout
  simp [initState]

theorem startHeartbeat_of_none (sid : String) (act : Bool) (s : PanelState)
    (h : s.heartbeatIntervalRef = none) :
    startHeartbeat sid act s
      = { s with isHeartbeatActive := true,
                 timers := s.timers
                   ++ [⟨s.nextTimerId, TimerKind.timeout, 8000, TimerAction.heartbeatWarmup sid act⟩,
                       ⟨s.nextTimerId + 1, TimerKind.interval, 60000, TimerAction.heartbeatTick sid act⟩],
                 heartbeatIntervalRef := some (s.nextTimerId + 1),
                 nextTimerId := s.nextTimerId + 2 } := by
  unfold startHeartbeat
  rw [h]

theorem startHeartbeat_of_some (sid : String) (act : Bool) (s : PanelState) (tid : Nat)
    (h : s.heartbeatIntervalRef = some tid) : startHeartbeat sid act s = s := by
  unfold startHeartbeat
  rw [h]

theorem stopHeartbeat_of_none (s : PanelState) (h : s.heartbeatIntervalRef = none) :
    stopHeartbeat s = s := by
  unfold stopHeartbeat
  rw [h]

theorem stopHeartbeat_of_some (s : PanelState) (tid : Nat)
    (h : s.heartbeatIntervalRef = some tid) :
    stopHeartbeat s
      = { s with timers := s.timers.filter (fun t => t.id ≠ tid),
                 heartbeatIntervalRef := none, isHeartbeatActive := false } := by
  unfold stopHeartbeat
  rw [h]

theorem handleContinueWorking_fst (s : PanelState) :
    (handleContinueWorking s).1
      = { s with isDriftAcknowledged := true, isDrifting := false,
                 timers := s.timers
                   ++ [⟨s.nextTimerId, TimerKind.timeout, 60000, TimerAction.graceRearm⟩],
                 nextTimerId := s.nextTimerId + 1 } := rfl

theorem hbInv_start (sid : String) (act : Bool) (s : PanelState) (h : hbInv s) :
    hbInv (startHeartbeat sid act s) := by
  obtain ⟨hiff, hlt, hpw, hm⟩ := h
  cases hh : s.heartbeatIntervalRef with
  | some tid =>
    rw [startHeartbeat_of_some sid act s tid hh]
    exact ⟨hiff, hlt, hpw, hm⟩
  | none =>
    rw [hh] at hm
    rw [startHeartbeat_of_none sid act s hh]
    unfold hbInv
    dsimp only
    refine ⟨by simp, ?_, ?_, ?_⟩
    · intro t ht
      simp only [List.mem_append, List.mem_cons, List.not_mem_nil, or_false,
        List.mem_singleton] at ht
      rcases ht with ht | ht | ht
      · have := hlt t ht
        omega
      · rw [ht]
        show s.nextTimerId < s.nextTimerId + 2
        omega
      · rw [ht]
        show s.nextTimerId + 1 < s.nextTimerId + 2
        omega
    · rw [List.pairwise_append]
      refine ⟨hpw, ?_, ?_⟩
      · simp
      · intro a ha b hb
        have hai := hlt a ha
        simp only [List.mem_cons, List.not_mem_nil, or_false, List.mem_singleton] at hb
        rcases hb with hb | hb
        · rw [hb]
          show a.id ≠ s.nextTimerId
          omega
        · rw [hb]
          show a.id ≠ s.nextTimerId + 1
          omega
    · refine ⟨by omega, ?_⟩
      intro t ht
      simp only [List.mem_append, List.mem_cons, List.not_mem_nil, or_false,
        List.mem_singleton] at ht
      rcases ht with ht | ht | ht
      · have hk := hm t ht
        have hi := hlt t ht
        rw [hk]
        constructor
        · intro hc
          cases hc
        · intro hc
          omega
      · rw [ht]
        constructor
        · intro hc
          cases hc
        · intro hc
          have hc2 : s.nextTimerId = s.nextTimerId + 1 := hc
          exact absurd hc2 (by omega)
      · rw [ht]
        simp

theorem hbInv_stop (s : PanelState) (h : hbInv s) : hbInv (stopHeartbeat s) := by
  obtain ⟨hiff, hlt, hpw, hm⟩ := h
  cases hh : s.heartbeatIntervalRef with
  | none =>
    rw [stopHeartbeat_of_none s hh]
    exact ⟨hiff, hlt, hpw, hm⟩
  | some tid =>
    rw [hh] at hm
    obtain ⟨htid, hiffk⟩ := hm
    rw [stopHeartbeat_of_some s tid hh]
    unfold hbInv
    dsimp only
    refine ⟨by simp, ?_, ?_, ?_⟩
    · intro t ht
      exact hlt t (List.mem_of_mem_filter ht)
    · exact hpw.sublist (List.filter_sublist _)
    · intro t ht
      rw [List.mem_filter] at ht
      have hne : t.id ≠ tid := by simpa using ht.2
      have hki := hiffk t ht.1
      cases hk : t.kind with
      | timeout => rfl
      | interval => exact absurd (hki.mp hk) hne

theorem hbInv_continue (s : PanelState) (h : hbInv s) : hbInv (handleContinueWorking s).1 := by
  obtain ⟨hiff, hlt, hpw, hm⟩ := h
  rw [handleContinueWorking_fst]
  unfold hbInv
  dsimp only
  refine ⟨hiff, ?_, ?_, ?_⟩
  · intro t ht
    simp only [List.mem_append, List.mem_singleton] at ht
    rcases ht with ht | ht
    · have := hlt t ht
      omega
    · rw [ht]
      show s.nextTimerId < s.nextTimerId + 1
      omega
  · rw [List.pairwise_append]
    refine ⟨hpw, by simp, ?_⟩
    intro a ha b hb
    have hai := hlt a ha
    simp only [List.mem_singleton] at hb
    rw [hb]
    show a.id ≠ s.nextTimerId
    omega
  · cases hh : s.heartbeatIntervalRef with
    | none =>
      rw [hh] at hm
      intro t ht
      simp only [List.mem_append, List.mem_singleton] at ht
      rcases ht with ht | ht
      · exact hm t ht
      · rw [ht]
    | some tid =>
      rw [hh] at hm
      obtain ⟨htid2, hiffk⟩ := hm
      refine ⟨by omega, ?_⟩
      intro t ht
      simp only [List.mem_append, List.mem_singleton] at ht
      rcases ht with ht | ht
      · exact hiffk t ht
      · rw [ht]
        constructor
        · intro hc
          cases hc
        · intro hc
          have hc2 : s.nextTimerId = tid := hc
          exact absurd hc2 (by omega)

theorem hbInv_heartbeat (sid : String) (act : Bool) (env : HeartbeatEnv) (s : PanelState)
    (h : hbInv s) : hbInv ((sendHeartbeat sid act env s).1) := by
  obtain ⟨ht, hn, hr, ha⟩ := sendHeartbeat_frame sid act env s
  unfold hbInv
  rw [ht, hn, hr, ha]
  exact h

theorem runOps_cons (o : PanelOp) (os : List PanelOp) (s : PanelState) :
    runOps (o :: os) s = runOps os (applyOp o s) := rfl

theorem hbInv_runOps (ops : List PanelOp) (s : PanelState) (h : hbInv s) :
    hbInv (runOps ops s) := by
  induction ops generalizing s with
  | nil => exact h
  | cons o os ih =>
    rw [runOps_cons]
    apply ih
    cases o with
    | hbStart sid act => exact hbInv_start sid act s h
    | hbStop => exact hbInv_stop s h
    | continueWork => exact hbInv_continue s h
    | heartbeat sid act env => exact hbInv_heartbeat sid act env s h

/-- With pairwise-distinct ids and intervals characterized by one id, at
most one interval timer can be in the list. -/
theorem interval_filter_le_one (l : List Timer) (tid : Nat)
    (hpw : List.Pairwise (fun a b => a.id ≠ b.id) l)
    (hiff : ∀ t ∈ l, (t.kind = TimerKind.interval ↔ t.id = tid)) :
    (l.filter (fun t => t.kind = TimerKind.interval)).length ≤ 1 := by
  induction l with
  | nil => simp
  | cons a l ih =>
    rw [List.filter_cons]
    obtain ⟨hhead, htail⟩ := List.pairwise_cons.mp hpw
    by_cases hk : a.kind = TimerKind.interval
    · have haid : a.id = tid := (hiff a (by simp)).mp hk
      have hnil : l.filter (fun t => t.kind = TimerKind.interval) = [] := by
        rw [List.filter_eq_nil_iff]
        intro t htl hc
        have hkt : t.kind = TimerKind.interval := by simpa using hc
        have : t.id = tid := (hiff t (by simp [htl])).mp hkt
        exact hhead t htl (by omega)
      simp [hk, hnil]
    · have : decide (a.kind = TimerKind.interval) = false := by simpa using hk
      rw [this]
      exact ih htail (fun t ht => hiff t (by simp [ht]))

/-- C5 (amended): in every state reachable from the initial state through
the heartbeat, drift-recovery and heartbeat-delivery operations, at most
one heartbeat interval timer exists and the interval handle is absent
exactly when `isHeartbeatActive` is false.  (The claim's further reading
that no pending heartbeat evaluation can fire once `stopHeartbeat` has
cleared the handle is refuted separately: the 8-second warm-up one-shot is
not cancelled.) -/
theorem heartbeat_handle_invariant (ops : List PanelOp) :
    ((runOps ops initState).heartbeatIntervalRef = none
        ↔ (runOps ops initState).isHeartbeatActive = false) ∧
    intervalCount (runOps ops initState).timers ≤ 1 := by
  obtain ⟨hiff, hlt, hpw, hm⟩ := hbInv_runOps ops initState hbInv_init
  refine ⟨hiff, ?_⟩
  cases hh : (runOps ops initState).heartbeatIntervalRef with
  | none =>
    rw [hh] at hm
    have hnil : (runOps ops initState).timers.filter
        (fun t => t.kind = TimerKind.interval) = [] := by
      rw [List.filter_eq_nil_iff]
      intro t htl hc
      have hkt : t.kind = TimerKind.interval := by simpa using hc
      rw [hm t htl] at hkt
      cases hkt
    rw [intervalCount, hnil]
    simp
  | some tid =>
    rw [hh] at hm
    exact interval_filter_le_one _ tid hpw hm.2

/-- State with only a live camera ref mirror set. -/
def camLiveState : PanelState := { initState with videoStreamRef := some ⟨1, true, true⟩ }

/-- C5 counterexample to the claim as stated: start then stop the heartbeat
before the warm-up fires.  The interval handle is cleared and the subsystem
marked inactive, yet the 8-second warm-up evaluation is still pending — and
firing it still captures a frame and sends the heartbeat request, because
its callback captured the session id and `isActive = true` by value. -/
theorem stop_heartbeat_leaves_pending_warmup :
    (stopHeartbeat (startHeartbeat "s1" true camLiveState)).heartbeatIntervalRef = none ∧
    (stopHeartbeat (startHeartbeat "s1" true camLiveState)).isHeartbeatActive = false ∧
    (stopHeartbeat (startHeartbeat "s1" true camLiveState)).timers
      = [⟨0, TimerKind.timeout, 8000, TimerAction.heartbeatWarmup "s1" true⟩] ∧
    (fireAction (TimerAction.heartbeatWarmup "s1" true) focusedReportEnv
        (stopHeartbeat (startHeartbeat "s1" true camLiveState))).2
      = [Effect.netHeartbeat "s1"] := by
  refine ⟨rfl, rfl, ?_, ?_⟩ <;> rfl

/-- Attempt `j` rejects with an error that is not a permission denial. -/
def NonPermFail (attempt : CameraEnv) (j : Nat) : Prop :=
  ∃ e, attempt j = .error e ∧ e.name ≠ ErrName.notAllowed ∧ e.name ≠ ErrName.permissionDenied

theorem runTiers_cons_ok (attempt : CameraEnv) (i : Nat) (rest : List Nat)
    (last : Option JsError) (st : MediaStream) (h : attempt i = .ok st) :
    runTiers attempt (i :: rest) last = ([Effect.getUserMediaVideo i], .ok st) := by
  unfold runTiers
  rw [h]

theorem runTiers_cons_perm (attempt : CameraEnv) (i : Nat) (rest : List Nat)
    (last : Option JsError) (e : JsError) (h : attempt i = .error e)
    (hp : e.name = ErrName.notAllowed ∨ e.name = ErrName.permissionDenied) :
    runTiers attempt (i :: rest) last = ([Effect.getUserMediaVideo i], .error e) := by
  unfold runTiers
  rw [h]
  dsimp only
  rw [if_pos hp]

theorem runTiers_cons_nonperm (attempt : CameraEnv) (i : Nat) (rest : List Nat)
    (last : Option JsError) (e : JsError) (h : attempt i = .error e)
    (hp1 : e.name ≠ ErrName.notAllowed) (hp2 : e.name ≠ ErrName.permissionDenied) :
    runTiers attempt (i :: rest) last
      = (Effect.getUserMediaVideo i :: (runTiers attempt rest (some e)).1,
         (runTiers attempt rest (some e)).2) := by
  conv_lhs => rw [runTiers.eq_def]
  dsimp only
  rw [h]
  dsimp only
  rw [if_neg (fun hc => hc.elim hp1 hp2)]

/-- Reduction of `toggleVideo` on a fresh acquisition (video off, no stale
handle) whose fallback loop ends in an error. -/
theorem toggleVideo_fresh_error (attempt : CameraEnv) (s : PanelState) (e : JsError)
    (hOn : s.isVideoOn = false) (hvs : s.videoStream = none)
    (he : (runTiers attempt [0, 1, 2, 3] none).2 = .error e) :
    toggleVideo attempt s
      = ({ s with sessionError := some (cameraErrorMessage e),
                  isVideoOn := false, videoStream := none, videoStreamRef := none },
         (runTiers attempt [0, 1, 2, 3] none).1) := by
  unfold toggleVideo
  rw [hvs]
  simp [hOn, he]

/-- Reduction of `toggleVideo` on a fresh acquisition whose fallback loop
accepts a stream whose video track is not live. -/
theorem toggleVideo_fresh_ok_dead (attempt : CameraEnv) (s : PanelState) (st : MediaStream)
    (hOn : s.isVideoOn = false) (hvs : s.videoStream = none)
    (he : (runTiers attempt [0, 1, 2, 3] none).2 = .ok st)
    (hlive : st.videoTrackLive = false) :
    toggleVideo attempt s
      = ({ s with sessionError := some (cameraErrorMessage ⟨ErrName.other, "Camera stream is not live"⟩),
                  isVideoOn := false, videoStream := none, videoStreamRef := none },
         (runTiers attempt [0, 1, 2, 3] none).1 ++ [Effect.stopTracks st.id]) := by
  unfold toggleVideo
  rw [hvs]
  simp [hOn, he, hlive]

/-- C9: the camera acquisition of `toggleVideo` walks the four constraint
tiers in order — when the first `k` attempts fail with non-permission
errors, tier `k` succeeding makes the device requests exactly tiers
`0..k`; tier `k` failing with `NotAllowedError` / `PermissionDeniedError`
aborts with exactly those requests (no further fallback) and surfaces the
permission message with no stream installed; and an accepted stream whose
video track is not live is stopped before the failure is surfaced, leaving
no stream referenced. -/
theorem camera_fallback_and_liveness (attempt : CameraEnv) (s : PanelState)
    (hOn : s.isVideoOn = false) (hvs : s.videoStream = none) :
    (∀ k, k < 4 → (∀ j, j < k → NonPermFail attempt j) →
      (∀ st, attempt k = .ok st →
        runTiers attempt [0, 1, 2, 3] none
          = ((List.range (k + 1)).map Effect.getUserMediaVideo, .ok st)) ∧
      (∀ e, attempt k = .error e →
        (e.name = ErrName.notAllowed ∨ e.name = ErrName.permissionDenied) →
        runTiers attempt [0, 1, 2, 3] none
          = ((List.range (k + 1)).map Effect.getUserMediaVideo, .error e) ∧
        (toggleVideo attempt s).1.sessionError = some (cameraErrorMessage e) ∧
        (toggleVideo attempt s).1.videoStream = none ∧
        (toggleVideo attempt s).2 = (List.range (k + 1)).map Effect.getUserMediaVideo)) ∧
    (∀ st, (runTiers attempt [0, 1, 2, 3] none).2 = .ok st → st.videoTrackLive = false →
      (toggleVideo attempt s).2
        = (runTiers attempt [0, 1, 2, 3] none).1 ++ [Effect.stopTracks st.id] ∧
      (toggleVideo attempt s).1.videoStream = none ∧
      (toggleVideo attempt s).1.sessionError
        = some (cameraErrorMessage ⟨ErrName.other, "Camera stream is not live"⟩)) := by
  constructor
  · intro k hk hprev
    interval_cases k
    · constructor
      · intro st hst
        rw [runTiers_cons_ok attempt 0 _ none st hst]
        simp [List.range_succ]
      · intro e he hp
        have hrun := runTiers_cons_perm attempt 0 [1, 2, 3] none e he hp
        refine ⟨by rw [hrun]; simp [List.range_succ], ?_, ?_, ?_⟩
        all_goals rw [toggleVideo_fresh_error attempt s e hOn hvs (by rw [hrun])]
        all_goals simp [hrun, List.range_succ]
    · obtain ⟨e0, ha0, h0a, h0p⟩ := hprev 0 (by omega)
      have hn0 := runTiers_cons_nonperm attempt 0 [1, 2, 3] none e0 ha0 h0a h0p
      constructor
      · intro st hst
        rw [hn0, runTiers_cons_ok attempt 1 _ (some e0) st hst]
        simp [List.range_succ]
      · intro e he hp
        have hrun : runTiers attempt [0, 1, 2, 3] none
            = ([Effect.getUserMediaVideo 0, Effect.getUserMediaVideo 1], .error e) := by
          rw [hn0, runTiers_cons_perm attempt 1 [2, 3] (some e0) e he hp]
        refine ⟨by rw [hrun]; simp [List.range_succ], ?_, ?_, ?_⟩
        all_goals rw [toggleVideo_fresh_error attempt s e hOn hvs (by rw [hrun])]
        all_goals simp [hrun, List.range_succ]
    · obtain ⟨e0, ha0, h0a, h0p⟩ := hprev 0 (by omega)
      obtain ⟨e1, ha1, h1a, h1p⟩ := hprev 1 (by omega)
      have hn0 := runTiers_cons_nonperm attempt 0 [1, 2, 3] none e0 ha0 h0a h0p
      have hn1 := runTiers_cons_nonperm attempt 1 [2, 3] (some e0) e1 ha1 h1a h1p
      constructor
      · intro st hst
        rw [hn0, hn1, runTiers_cons_ok attempt 2 _ (some e1) st hst]
        simp [List.range_succ]
      · intro e he hp
        have hrun : runTiers attempt [0, 1, 2, 3] none
            = ([Effect.getUserMediaVideo 0, Effect.getUserMediaVideo 1,
                Effect.getUserMediaVideo 2], .error e) := by
          rw [hn0, hn1, runTiers_cons_perm attempt 2 [3] (some e1) e he hp]
        refine ⟨by rw [hrun]; simp [List.range_succ], ?_, ?_, ?_⟩
        all_goals rw [toggleVideo_fresh_error attempt s e hOn hvs (by rw [hrun])]
        all_goals simp [hrun, List.range_succ]
    · obtain ⟨e0, ha0, h0a, h0p⟩ := hprev 0 (by omega)
      obtain ⟨e1, ha1, h1a, h1p⟩ := hprev 1 (by omega)
      obtain ⟨e2, ha2, h2a, h2p⟩ := hprev 2 (by omega)
      have hn0 := runTiers_cons_nonperm attempt 0 [1, 2, 3] none e0 ha0 h0a h0p
      have hn1 := runTiers_cons_nonperm attempt 1 [2, 3] (some e0) e1 ha1 h1a h1p
      have hn2 := runTiers_cons_nonperm attempt 2 [3] (some e1) e2 ha2 h2a h2p
      constructor
      · intro st hst
        rw [hn0, hn1, hn2, runTiers_cons_ok attempt 3 _ (some e2) st hst]
        simp [List.range_succ]
      · intro e he hp
        have hrun : runTiers attempt [0, 1, 2, 3] none
            = ([Effect.getUserMediaVideo 0, Effect.getUserMediaVideo 1,
                Effect.getUserMediaVideo 2, Effect.getUserMediaVideo 3], .error e) := by
          rw [hn0, hn1, hn2, runTiers_cons_perm attempt 3 [] (some e2) e he hp]
        refine ⟨by rw [hrun]; simp [List.range_succ], ?_, ?_, ?_⟩
        all_goals rw [toggleVideo_fresh_error attempt s e hOn hvs (by rw [hrun])]
        all_goals simp [hrun, List.range_succ]
  · intro st hok hlive
    rw [toggleVideo_fresh_ok_dead attempt s st hOn hvs hok hlive]
    exact ⟨rfl, rfl, rfl⟩

/-- Camera environment: tier 0 fails as hardware-busy, tier 1 is denied. -/
def busyThenDenied : CameraEnv := fun i =>
  if i = 0 then .error ⟨ErrName.notReadable, "camera busy"⟩
  else .error ⟨ErrName.notAllowed, "denied"⟩

theorem camera_fallback_and_liveness_witness :
    runTiers busyThenDenied [0, 1, 2, 3] none
      = ((List.range 2).map Effect.getUserMediaVideo, .error ⟨ErrName.notAllowed, "denied"⟩) ∧
    (toggleVideo busyThenDenied initState).1.sessionError
      = some (cameraErrorMessage ⟨ErrName.notAllowed, "denied"⟩) ∧
    (toggleVideo busyThenDenied initState).1.videoStream = none ∧
    (toggleVideo busyThenDenied initState).2 = (List.range 2).map Effect.getUserMediaVideo := by
  have h := camera_fallback_and_liveness busyThenDenied initState rfl rfl
  have hprev : ∀ j, j < 1 → NonPermFail busyThenDenied j := by
    intro j hj
    have hj0 : j = 0 := by omega
    rw [hj0]
    exact ⟨⟨ErrName.notReadable, "camera busy"⟩, rfl, by decide, by decide⟩
  exact (h.1 1 (by omega) hprev).2 ⟨ErrName.notAllowed, "denied"⟩ rfl (Or.inl rfl)

end Mindboat
